import Mathlib

/-!
Verification of the cpi library (inflation adjustment via the Consumer
Price Index).

Part 1 embeds the dictionary-based query engine of `cpi/__init__.py`
together with the data dictionaries built by `cpi/data.py`: the module
level constants `LATEST_YEAR` / `LATEST_MONTH`, and the public
functions `get` and `inflate`.

Part 2 embeds the object model of `cpi/models.py` and the series id
codec of `cpi/parsers.py`: `queryone`, catalog lookups (`get_by_id`,
`get_by_name`), the `SeriesList` cache (`append`, `get_by_id`) and the
fixed-offset series id slicing (`ParseSeries.parse_id`) with its
re-encoding in `SeriesList.get`.

Python floats are modelled as exact rationals (`Rat`); the inflation
formula is a pure ratio with no internal rounding, so the rational
model captures it directly.  Python dictionaries are modelled as
association lists, Python strings as `String` (or `List Char` where
character slicing matters).
-/

/-! ## Part 1: the query engine of `cpi/__init__.py` -/

/-- Python values that can be passed as the `year_or_month` / `to`
arguments.  `int` covers `numbers.Integral` (after the `int(...)`
sanitization all integers compare equal by value); `pydate` is
`datetime.date`, `pydatetime` is `datetime.datetime` (a subclass of
`date`, so `isinstance(x, date)` is true for it; time of day plays no
role in any code path modelled here); `float` is a Python float,
modelled exactly as a rational; `pynone` is `None`. -/
inductive PyVal where
  | int (n : Int)
  | pydate (y : Int) (m : Nat) (d : Nat)
  | pydatetime (y : Int) (m : Nat) (d : Nat)
  | float (q : Rat)
  | pynone
deriving DecidableEq, Repr

/-- Python `==` on the values above: integers and floats compare
numerically across types, `date` and `datetime` instances never
compare equal to each other, `None` equals only `None`. -/
def pyEq : PyVal → PyVal → Bool
  | .int a, .int b => a == b
  | .int a, .float q => (a : Rat) == q
  | .float q, .int a => q == (a : Rat)
  | .float q, .float r => q == r
  | .pydate y m d, .pydate y2 m2 d2 => y == y2 && m == m2 && d == d2
  | .pydatetime y m d, .pydatetime y2 m2 d2 => y == y2 && m == m2 && d == d2
  | .pynone, .pynone => true
  | _, _ => false

/-- Python truthiness test used by `if not to:` — `None`, `0` and
`0.0` are falsy; `date` and `datetime` objects are always truthy. -/
def isFalsy : PyVal → Bool
  | .int n => n == 0
  | .float q => q == 0
  | .pynone => true
  | _ => false

/-- Python `type(x)` as far as `inflate` compares it. -/
inductive PyType where
  | tInt
  | tFloat
  | tDate
  | tDatetime
  | tNone
deriving DecidableEq, Repr

def typeOf : PyVal → PyType
  | .int _ => .tInt
  | .float _ => .tFloat
  | .pydate _ _ _ => .tDate
  | .pydatetime _ _ _ => .tDatetime
  | .pynone => .tNone

/-- Sanitization applied by `inflate` to both endpoints: integral
values are coerced with `int(...)` (identity in this model, where all
integrals are already `Int`), a `datetime` is shaved down to its
`date`; everything else passes through. -/
def sanitize : PyVal → PyVal
  | .pydatetime y m d => .pydate y m d
  | x => x

/-- Test for `isinstance(year_or_month, (date, datetime))` used when
defaulting the `to` argument. -/
def isDateInstance : PyVal → Bool
  | .pydate _ _ _ => true
  | .pydatetime _ _ _ => true
  | _ => false

/-- Errors raised by the query engine: `ValueError`,
`CPIDoesNotExist` and `TypeError` in the source. -/
inductive CpiError where
  | valueError (msg : String)
  | doesNotExist (msg : String)
  | typeError (msg : String)
deriving DecidableEq, Repr

/-- Result of a query-engine call: a rational (Python float) or a
raised error. -/
inductive Res where
  | ok (v : Rat)
  | err (e : CpiError)
deriving DecidableEq, Repr

/-- A month key: the (year, month, day) triple of a `datetime.date`
used as a dictionary key in `cpi_by_month`. -/
abbrev DateKey := Int × Nat × Nat

/-- The in-memory data dictionaries built by `cpi/data.py` from
`data.csv`: `cpi_by_year` maps a series id to a year-keyed dictionary
of values, `cpi_by_month` maps a series id to a date-keyed dictionary
of values. -/
structure Env where
  byYear : List (String × List (Int × Rat))
  byMonth : List (String × List (DateKey × Rat))

/-- The module constant `DEFAULT_SERIES = "CUUR0000SA0"`. -/
def DEFAULT_SERIES : String := "CUUR0000SA0"

/-- Python `max` over the integer keys of a dictionary (`max(YEARS)`);
`0` stands in for the crash on an empty sequence, which would already
have prevented the module from loading. -/
def maxIntKey : List (Int × Rat) → Int
  | [] => 0
  | (k, _) :: rest => max k (maxIntKey rest)

/-- Chronological comparison of two date keys (Python date ordering is
lexicographic on year, month, day). -/
def dateKeyLe (a b : DateKey) : Bool :=
  a.1 < b.1 || (a.1 == b.1 && (a.2.1 < b.2.1 || (a.2.1 == b.2.1 && a.2.2 ≤ b.2.2)))

/-- Python `max` over the date keys of a dictionary (`max(MONTHS)`);
`(0, 1, 1)` stands in for the crash on an empty sequence. -/
def maxDateKey : List (DateKey × Rat) → DateKey
  | [] => (0, 1, 1)
  | (k, _) :: rest =>
    let m := maxDateKey rest
    if dateKeyLe m k then k else m

/-- The module constant `LATEST_YEAR = max(cpi_by_year[DEFAULT_SERIES].keys())`. -/
def latestYearOf (e : Env) : Int :=
  match e.byYear.lookup DEFAULT_SERIES with
  | some sd => maxIntKey sd
  | Option.none => 0

/-- The module constant `LATEST_MONTH = max(cpi_by_month[DEFAULT_SERIES].keys())`. -/
def latestMonthOf (e : Env) : DateKey :=
  match e.byMonth.lookup DEFAULT_SERIES with
  | some sd => maxDateKey sd
  | Option.none => (0, 1, 1)

/-- The public function `cpi.get(year_or_month, series=DEFAULT_SERIES)` (named `cpiGet` here since `get` is taken in Lean):
dispatches on the input type (`Integral` → `cpi_by_year`, `date` —
which includes `datetime` — → `cpi_by_month`, anything else →
`ValueError`), normalizes a date whose day is not 1 to the first of
its month, then looks up the series dictionary and the value.  A
`datetime` key is normalized like a date but never equals any of the
`date` keys stored in `cpi_by_month`, so its value lookup always
misses.  The Python messages interpolate the offending key; the key
text is elided here. -/
def cpiGet (e : Env) (k : PyVal) (series : String) : Res :=
  match k with
  | .int n =>
    match e.byYear.lookup series with
    | Option.none => .err (.doesNotExist ("CPI series " ++ series ++ " not found"))
    | some sd =>
      match sd.lookup n with
      | some v => .ok v
      | Option.none => .err (.doesNotExist ("CPI value not found"))
  | .pydate y m d =>
    let key : DateKey := if d != 1 then (y, m, 1) else (y, m, d)
    match e.byMonth.lookup series with
    | Option.none => .err (.doesNotExist ("CPI series " ++ series ++ " not found"))
    | some sd =>
      match sd.lookup key with
      | some v => .ok v
      | Option.none => .err (.doesNotExist ("CPI value not found"))
  | .pydatetime _ _ _ =>
    match e.byMonth.lookup series with
    | Option.none => .err (.doesNotExist ("CPI series " ++ series ++ " not found"))
    | some _ => .err (.doesNotExist ("CPI value not found"))
  | _ => .err (.valueError ("Only integers and date objects are accepted."))

/-- The arithmetic tail of `inflate`, applied after the equality
short-circuit, the `to` defaulting and the sanitization of both
endpoints: the type check, the two index lookups (source first) and
the ratio `(value * target_index) / float(source_index)`. -/
def inflateCore (e : Env) (value : Rat) (yom2 to2 : PyVal) (series : String) : Res :=
  if typeOf yom2 != typeOf to2 then
    .err (.typeError ("Years can only be converted to other years. Months only to other months."))
  else
    match cpiGet e yom2 series with
    | .err er => .err er
    | .ok src =>
      match cpiGet e to2 series with
      | .err er => .err er
      | .ok tgt => .ok (value * tgt / src)

/-- The public function
`cpi.inflate(value, year_or_month, to=None, series=DEFAULT_SERIES)`.
Order of operations, exactly as in the source: (1) if
`year_or_month == to`, return `value` unadjusted; (2) if `to` is falsy
(omitted, `None`, `0`, …) replace it with `LATEST_MONTH` when
`year_or_month` is a date instance and with `LATEST_YEAR` otherwise,
else sanitize it; (3) sanitize `year_or_month`; (4) fail with
`TypeError` when the two sanitized types differ; (5) compute the
ratio. -/
def inflate (e : Env) (value : Rat) (yom : PyVal) (toArg : Option PyVal) (series : String) : Res :=
  let toV : PyVal := match toArg with | Option.none => .pynone | some v => v
  if pyEq yom toV then .ok value
  else
    let to2 : PyVal :=
      if isFalsy toV then
        if isDateInstance yom then
          let lm := latestMonthOf e
          .pydate lm.1 lm.2.1 lm.2.2
        else
          .int (latestYearOf e)
      else sanitize toV
    inflateCore e value (sanitize yom) to2 series

/-- Time keys that the spec calls valid: an integer year (every year
present in the dataset is a nonzero CE year) or a first-of-month
date. -/
def isValidTimeKey : PyVal → Bool
  | .int n => n != 0
  | .pydate _ _ d => d == 1
  | _ => false

/-- Values whose type passes the `isinstance` gates of `get`: an
integer or a date-like value (`date` or its subclass `datetime`). -/
def isTimeKeyType : PyVal → Bool
  | .int _ => true
  | .pydate _ _ _ => true
  | .pydatetime _ _ _ => true
  | _ => false

/-- Both keys belong to the same granularity class: both integer
years, or both dates. -/
def sameGranularity : PyVal → PyVal → Bool
  | .int _, .int _ => true
  | .pydate _ _ _, .pydate _ _ _ => true
  | _, _ => false

/-- Modelled from the spec (section 3, invariants): a Series own
latest annual year — the greatest year key of that series in the
annual dictionary, undefined when the series has no annual data.  The
code under test works with the module-level `LATEST_YEAR` instead;
this definition exists to compare the two. -/
def latestAnnualYearOfSeriesSpec (e : Env) (s : String) : Option Int :=
  match e.byYear.lookup s with
  | Option.none => Option.none
  | some [] => Option.none
  | some sd => some (maxIntKey sd)

/-- Concrete environment shaped like the documented dataset scenario
(`get(1950)` and `get(2000)` defined for the default series; the
values are illustrative integers so that concrete evaluations stay
kernel-reducible). -/
def envW : Env :=
  { byYear := [(DEFAULT_SERIES, [(1950, 24), (2000, 172)])]
    byMonth := [(DEFAULT_SERIES, [((1950, 1, 1), 23), ((2025, 3, 1), 319)])] }

/-- Environment for the falsy-`to` counterexample: the default series
has monthly data whose latest month is March 2025. -/
def envC3 : Env :=
  { byYear := [(DEFAULT_SERIES, [(1950, 24)])]
    byMonth := [(DEFAULT_SERIES, [((1950, 1, 1), 20), ((2025, 3, 1), 320)])] }

/-- Environment for the default-target counterexample: the default
series has latest annual year 2024, while series XX has latest annual
year 2020 with values 10 (1950) and 30 (2020). -/
def envC4 : Env :=
  { byYear := [(DEFAULT_SERIES, [(1950, 24), (2024, 50)]), ("XX", [(1950, 10), (2020, 30)])]
    byMonth := [(DEFAULT_SERIES, [((2025, 3, 1), 320)])] }

/-! ## Part 2: the object model of `cpi/models.py` and the codec of `cpi/parsers.py` -/

/-- Errors raised by the object model: `CPIObjectDoesNotExist`,
`ValueError`, and the `KeyError` a Python dictionary lookup raises. -/
inductive ModelError where
  | objectDoesNotExist (msg : String)
  | valueErr (msg : String)
  | keyError
deriving DecidableEq, Repr

/-- Result of an object-model operation. -/
inductive DbRes (α : Type) where
  | ok (v : α)
  | err (e : ModelError)
deriving DecidableEq, Repr

/-- The function `queryone(sql, params)` of `cpi/models.py`, applied
to the row list the underlying select returns: exactly one row is
returned; zero rows raise `CPIObjectDoesNotExist("Object does not
exist")`; more than one raises `ValueError("More than one object
exists")`. -/
def queryone {α : Type} (rows : List α) : DbRes α :=
  match rows with
  | [] => .err (.objectDoesNotExist ("Object does not exist"))
  | [x] => .ok x
  | _ => .err (.valueErr ("More than one object exists"))

/-- A row of one of the flat reference catalogs (`areas`, `items`,
`periodicities`): columns `id`, `code`, `name`. -/
structure CatRow where
  id : String
  code : String
  name : String
deriving DecidableEq, Repr

/-- `BaseObject.get_by_id`: `queryone` over `SELECT * FROM t WHERE id=?`,
modelled as a filter on the id column. -/
def getById (tbl : List CatRow) (v : String) : DbRes CatRow :=
  queryone (tbl.filter (fun r => r.id == v))

/-- `BaseObject.get_by_name`: `queryone` over `SELECT * FROM t WHERE name=?`. -/
def getByName (tbl : List CatRow) (v : String) : DbRes CatRow :=
  queryone (tbl.filter (fun r => r.name == v))

/-- Whether `key` occurs as a contiguous run at the head of `l`. -/
def startsWithL : List Char → List Char → Bool
  | [], _ => true
  | _ :: _, [] => false
  | a :: as, b :: bs => a == b && startsWithL as bs

/-- Whether `key` occurs as a contiguous run anywhere in `l`. -/
def hasSubstrL (key : List Char) : List Char → Bool
  | [] => key.isEmpty
  | b :: bs => startsWithL key (b :: bs) || hasSubstrL key bs

/-- Whether the error message `msg` mentions the text `key` — the
formal reading of an error "identifying" a key or a table. -/
def mentions (msg key : String) : Bool :=
  hasSubstrL key.data msg.data

/-- A row of the `periods` catalog: columns `id`, `code`,
`abbreviation`, `name`. -/
structure PeriodRow where
  id : String
  code : String
  abbreviation : String
  name : String
deriving DecidableEq, Repr

/-- A row of the `series` table: `seasonally_adjusted` is stored as an
integer 0/1. -/
structure SeriesRow where
  id : String
  title : String
  survey : String
  seasonally_adjusted : Int
  periodicity : String
  area : String
  items : String
deriving DecidableEq, Repr

/-- A row of the `indexes` table. -/
structure IndexRow where
  series : String
  year : Int
  period : String
  value : Rat
deriving DecidableEq, Repr

/-- The `Index` object of `cpi/models.py`: its period is a resolved
`Period` record. -/
structure IndexObj where
  series_id : String
  year : Int
  period : PeriodRow
  value : Rat
deriving DecidableEq, Repr

/-- The `Series` object: metadata resolved through the catalogs plus
the full ordered list of its `Index` objects. -/
structure SeriesObj where
  id : String
  title : String
  survey : String
  seasonally_adjusted : Bool
  periodicity : CatRow
  area : CatRow
  items : CatRow
  indexes : List IndexObj
deriving DecidableEq, Repr

/-- The persisted `cpi.db` store as the object model queries it. -/
structure DB where
  series : List SeriesRow
  indexes : List IndexRow
  periods : List PeriodRow
  areas : List CatRow
  items : List CatRow
  periodicities : List CatRow

/-- The index-loading loop of `Series.get_by_id`: each raw row has its
period resolved through the period cache `{p.id: p for p in
Period.all()}` (a missing period id is a dictionary `KeyError`), is
turned into an `Index` object, and is appended in store order. -/
def loadIndexes (periods : List PeriodRow) (sid : String) : List IndexRow → DbRes (List IndexObj)
  | [] => .ok []
  | r :: rest =>
    match periods.find? (fun p => p.id == r.period) with
    | Option.none => .err .keyError
    | some p =>
      match loadIndexes periods sid rest with
      | .err er => .err er
      | .ok l => .ok ({ series_id := sid, year := r.year, period := p, value := r.value } :: l)

/-- `Series.get_by_id` (the classmethod): `queryone` the series row,
decode the stored 0/1 seasonality flag through `{1: True, 0: False}`
(anything else is a `KeyError`), resolve the periodicity, area and
item codes through their catalogs, load every index row of the
series, and build the `Series` object. -/
def seriesGetById (db : DB) (v : String) : DbRes SeriesObj :=
  match queryone (db.series.filter (fun r => r.id == v)) with
  | .err er => .err er
  | .ok row =>
    match (if row.seasonally_adjusted == 1 then some true
           else if row.seasonally_adjusted == 0 then some false
           else Option.none) with
    | Option.none => .err .keyError
    | some sa =>
      match getById db.periodicities row.periodicity with
      | .err er => .err er
      | .ok p =>
        match getById db.areas row.area with
        | .err er => .err er
        | .ok a =>
          match getById db.items row.items with
          | .err er => .err er
          | .ok it =>
            match loadIndexes db.periods row.id (db.indexes.filter (fun r => r.series == v)) with
            | .err er => .err er
            | .ok idxs =>
              .ok { id := row.id, title := row.title, survey := row.survey,
                    seasonally_adjusted := sa, periodicity := p, area := a,
                    items := it, indexes := idxs }

/-- The process-wide `SeriesList._dict` cache, keyed by series id.
Python dictionary assignment is modelled by consing, with `lookup`
returning the most recent binding. -/
abbrev SeriesCache := List (String × SeriesObj)

/-- `SeriesList.append`: bind `obj.id` to `obj` in the cache dictionary
(and append to the underlying list, which no claim concerns). -/
def seriesListAppend (cache : SeriesCache) (obj : SeriesObj) : SeriesCache :=
  (obj.id, obj) :: cache

/-- `SeriesList.get_by_id`: first try the cache and return the cached
object untouched; on a miss, run `Series.get_by_id` against the store
and, on success, insert the result under its id.  The third component
records whether the persisted store was queried. -/
def seriesListGetById (db : DB) (cache : SeriesCache) (v : String) :
    DbRes SeriesObj × SeriesCache × Bool :=
  match cache.lookup v with
  | some obj => (.ok obj, cache, false)
  | Option.none =>
    match seriesGetById db v with
    | .ok obj => (.ok obj, (v, obj) :: cache, true)
    | .err er => (.err er, cache, true)

/-- `ParseSeries.parse_id` of `cpi/parsers.py`: pure fixed-offset
slicing of a series id — 2-char survey, 1-char seasonal, 1-char
periodicity, 4-char area, remainder item.  Python strings are
modelled as character lists so that slicing is by element count. -/
def parseId (id : List Char) : List Char × List Char × List Char × List Char × List Char :=
  (id.take 2, (id.drop 2).take 1, (id.drop 3).take 1, (id.drop 4).take 4, id.drop 8)

/-- The `ParseSeries.SURVEYS` table mapping a survey code to its
human-readable name. -/
def surveysDecode (c : List Char) : Option (List Char) :=
  if c = ("CU").data then some ("All urban consumers").data
  else if c = ("CW").data then some ("Urban wage earners and clerical workers").data
  else Option.none

/-- The `SeriesList.SURVEYS` table mapping a survey name back to its
code. -/
def surveysEncode (n : List Char) : Option (List Char) :=
  if n = ("All urban consumers").data then some ("CU").data
  else if n = ("Urban wage earners and clerical workers").data then some ("CW").data
  else Option.none

/-- The `SeriesList.SEASONALITIES` table `{True: "S", False: "U"}`. -/
def seasonalityCode (b : Bool) : List Char :=
  if b then ("S").data else ("U").data

/-- The survey step of `SeriesList.get`: a name outside the
`SURVEYS` table raises `CPIObjectDoesNotExist` naming the survey. -/
def surveyCodeLookup (survey : String) : DbRes String :=
  match surveysEncode survey.data with
  | some c => .ok (String.mk c)
  | Option.none =>
    .err (.objectDoesNotExist ("Survey with the name " ++ survey ++ " does not exist"))

/-- The `seasonally_adjusted` argument of `SeriesList.get`: the
`SEASONALITIES` dictionary is keyed by the booleans `True`/`False`,
so any other value misses (a Python `1`/`0` hashes equal to
`True`/`False` and is modelled as `pybool`); a non-boolean value is
carried with its display text for the error message. -/
inductive SeasonalityArg where
  | pybool (b : Bool)
  | pyother (txt : String)
deriving DecidableEq, Repr

/-- The display text Python would interpolate for the argument. -/
def seasonalityArgStr : SeasonalityArg → String
  | .pybool true => "True"
  | .pybool false => "False"
  | .pyother t => t

/-- The dictionary lookup `SEASONALITIES[seasonally_adjusted]` of
`SeriesList.get`: `{True: "S", False: "U"}`, a miss for any
non-boolean key. -/
def seasonalitiesLookup : SeasonalityArg → Option String
  | .pybool true => some ("S")
  | .pybool false => some ("U")
  | .pyother _ => Option.none

/-- The seasonality step of `SeriesList.get`: a `KeyError` on the
`SEASONALITIES` dictionary is turned into `CPIObjectDoesNotExist`
naming the offending attribute value. -/
def seasonalityCodeLookup (sa : SeasonalityArg) : DbRes String :=
  match seasonalitiesLookup sa with
  | some c => .ok c
  | Option.none =>
    .err (.objectDoesNotExist ("Seasonality " ++ seasonalityArgStr sa ++ " does not exist"))

/-- The decode / rehydrate / re-encode loop on a series id: slice the
id with `parse_id`; recover the survey name (`ParseSeries.parse`) and
the seasonal flag `seasonal == "S"`; resolve the periodicity, area
and item codes through their catalogs by id (`Series.get_by_id`);
then re-encode as `SeriesList.get` does — survey name and seasonal
flag through the fixed tables, the other attributes through catalog
name lookups, concatenated in fixed order. -/
def rehydrateEncode (pcat acat icat : List CatRow) (id : List Char) : DbRes (List Char) :=
  let parts := parseId id
  match surveysDecode parts.1 with
  | Option.none => .err .keyError
  | some snm =>
    let sa : Bool := parts.2.1 == ("S").data
    match getById pcat (String.mk parts.2.2.1) with
    | .err er => .err er
    | .ok pr =>
      match getById acat (String.mk parts.2.2.2.1) with
      | .err er => .err er
      | .ok ar =>
        match getById icat (String.mk parts.2.2.2.2) with
        | .err er => .err er
        | .ok ir =>
          match surveysEncode snm with
          | Option.none =>
            .err (.objectDoesNotExist ("Survey with the name " ++ String.mk snm ++ " does not exist"))
          | some sc2 =>
            match getByName pcat pr.name with
            | .err er => .err er
            | .ok pr2 =>
              match getByName acat ar.name with
              | .err er => .err er
              | .ok ar2 =>
                match getByName icat ir.name with
                | .err er => .err er
                | .ok ir2 =>
                  .ok (sc2 ++ (seasonalityCode sa ++ (pr2.code.data ++ (ar2.code.data ++ ir2.code.data))))

/-! Concrete fixtures for witnesses and counterexamples. -/

/-- A one-row areas catalog. -/
def areasCat : List CatRow :=
  [{ id := "0000", code := "0000", name := "U.S. city average" }]

/-- A one-row periodicities catalog. -/
def periodicitiesCat : List CatRow :=
  [{ id := "R", code := "R", name := "Monthly" }]

/-- A one-row items catalog. -/
def itemsCat : List CatRow :=
  [{ id := "SA0", code := "SA0", name := "All items" }]

/-- The annual period row M13. -/
def periodM13 : PeriodRow :=
  { id := "M13", code := "M13", abbreviation := "AN", name := "Annual" }

/-- A small concrete store holding the default series with one annual
index row. -/
def dbW : DB :=
  { series := [{ id := "CUUR0000SA0", title := "All items", survey := "All urban consumers",
                 seasonally_adjusted := 0, periodicity := "R", area := "0000", items := "SA0" }]
    indexes := [{ series := "CUUR0000SA0", year := 1950, period := "M13", value := 24 }]
    periods := [periodM13]
    areas := areasCat
    items := itemsCat
    periodicities := periodicitiesCat }

/-- The series object `Series.get_by_id` builds from `dbW`. -/
def sObjW : SeriesObj :=
  { id := "CUUR0000SA0", title := "All items", survey := "All urban consumers",
    seasonally_adjusted := false,
    periodicity := { id := "R", code := "R", name := "Monthly" },
    area := { id := "0000", code := "0000", name := "U.S. city average" },
    items := { id := "SA0", code := "SA0", name := "All items" },
    indexes := [{ series_id := "CUUR0000SA0", year := 1950, period := periodM13, value := 24 }] }

/-- A second, distinct series object carrying the same id as `sObjW`. -/
def sObjW2 : SeriesObj :=
  { sObjW with title := "All items, replaced" }

/-! Smoke tests for the embedding (concrete evaluations). -/

example : cpiGet envW (.int 1950) DEFAULT_SERIES = .ok 24 := by decide
example : cpiGet envW (.int 1900) DEFAULT_SERIES = .err (.doesNotExist ("CPI value not found")) := by decide
example : cpiGet envW (.float 1900) DEFAULT_SERIES
    = .err (.valueError ("Only integers and date objects are accepted.")) := by decide
example : cpiGet envW (.pydate 1950 1 15) DEFAULT_SERIES = .ok 23 := by decide
example : inflate envW 100 (.int 1950) (some (.int 2000)) DEFAULT_SERIES
    = .ok (100 * 172 / 24) := by rfl
example : inflate envW 100 (.int 1950) (some (.pydate 2000 1 1)) DEFAULT_SERIES
    = .err (.typeError ("Years can only be converted to other years. Months only to other months.")) := by
  decide
example : inflate envC3 100 (.pydate 1950 1 1) (some (.int 0)) DEFAULT_SERIES
    = .ok (100 * 320 / 20) := by rfl
example : seriesGetById dbW ("CUUR0000SA0") = .ok sObjW := by decide
example : rehydrateEncode periodicitiesCat areasCat itemsCat ("CUUR0000SA0").data
    = .ok ("CUUR0000SA0").data := by decide
example : getByName areasCat ("Nope")
    = .err (.objectDoesNotExist ("Object does not exist")) := by decide
example : mentions ("Object does not exist") ("Nope") = false := by decide

/-! ## Helper lemmas -/

/-- Python equality is reflexive on the modelled values. -/
theorem pyEq_refl (k : PyVal) : pyEq k k = true := by
  cases k <;> simp [pyEq]

/-- The month key computed by `get` is the first of the month, for
every day of the month. -/
theorem monthKey_normalized (y : Int) (m d : Nat) :
    (if d = 1 then ((y, m, d) : DateKey) else (y, m, 1)) = (y, m, 1) := by
  by_cases h : d = 1 <;> simp [h]

/-! ## Claim theorems -/

/-- C2: for every value, every time key of any type (valid or not) and
any series argument, `inflate(v, t, to=t)` returns `v` unchanged; the
equality short-circuit runs before any validation, series resolution
or index lookup, so the result is `ok v` in every environment and for
every series string, and no error can be raised. -/
theorem inflate_identity_on_equal_endpoints (e : Env) (v : Rat) (k : PyVal) (s : String) :
    inflate e v k (some k) s = .ok v := by
  simp [inflate, pyEq_refl]

/-- C7: for every year, month and any two days, `get` resolves both
date keys to the same index, because a day other than the first is
normalized to the first of its month before lookup. -/
theorem get_same_month_same_index (e : Env) (s : String) (y : Int) (m d d2 : Nat) :
    cpiGet e (.pydate y m d) s = cpiGet e (.pydate y m d2) s := by
  simp [cpiGet, monthKey_normalized]

/-- C10: `inflate` applies the omitted-`to` default whenever `to` is
falsy, not only when it is absent: for every nonzero integer year,
passing `to=0` yields exactly the same result as omitting `to`, so no
NotFound lookup for year 0 ever happens. -/
theorem inflate_to_zero_same_as_omitted (e : Env) (v : Rat) (y : Int) (s : String)
    (h : y ≠ 0) :
    inflate e v (.int y) (some (.int 0)) s = inflate e v (.int y) Option.none s := by
  have hb : (y == (0 : Int)) = false := by simp [h]
  simp [inflate, pyEq, isFalsy, hb]

theorem inflate_to_zero_same_as_omitted_witness :
    inflate envW 100 (.int 1950) (some (.int 0)) DEFAULT_SERIES
      = inflate envW 100 (.int 1950) Option.none DEFAULT_SERIES :=
  inflate_to_zero_same_as_omitted envW 100 1950 DEFAULT_SERIES (by decide)

/-- C4 (amended): when `to` is omitted, `inflate` defaults the target
to the module-level `LATEST_YEAR` (integer time key) or `LATEST_MONTH`
(date time key), both computed from the default series
`CUUR0000SA0` — not from the series named by the `series` argument. -/
theorem inflate_omitted_to_uses_module_latest (e : Env) (v : Rat) (s : String) :
    (∀ n : Int, inflate e v (.int n) Option.none s
        = inflateCore e v (.int n) (.int (latestYearOf e)) s) ∧
    (∀ (y : Int) (m d : Nat), inflate e v (.pydate y m d) Option.none s
        = inflateCore e v (.pydate y m d)
            (.pydate (latestMonthOf e).1 (latestMonthOf e).2.1 (latestMonthOf e).2.2) s) := by
  constructor <;> intros <;> rfl

/-- C4 (counterexample): in `envC4` the series XX has its own latest
annual year 2020, with indexes 10 (1950) and 30 (2020); were the
omitted-`to` default the latest year of the selected series, the call
would return `ok (100 * 30 / 10)`, but the code defaults to the
default-series latest year 2024, which XX lacks, so the call fails
NotFound. -/
theorem inflate_omitted_to_not_per_series_cex :
    latestAnnualYearOfSeriesSpec envC4 ("XX") = some 2020 ∧
    cpiGet envC4 (.int 1950) ("XX") = .ok 10 ∧
    cpiGet envC4 (.int 2020) ("XX") = .ok 30 ∧
    latestYearOf envC4 = 2024 ∧
    inflate envC4 100 (.int 1950) Option.none ("XX")
      = .err (.doesNotExist ("CPI value not found")) := by
  refine ⟨by decide, by decide, by decide, by decide, by decide⟩

/-- Helper for C1: the ratio computation for two integer years; the
`to` year must be nonzero so that the falsy default does not fire. -/
theorem inflate_quotient_int (e : Env) (v : Rat) (s : String) (n n2 : Int) (c c2 : Rat)
    (hn2 : n2 ≠ 0)
    (h1 : cpiGet e (.int n) s = .ok c) (h2 : cpiGet e (.int n2) s = .ok c2) (hc : c ≠ 0) :
    inflate e v (.int n) (some (.int n2)) s = .ok (v * c2 / c) := by
  by_cases hEq : n = n2
  · subst hEq
    rw [h1] at h2
    injection h2 with hcc
    subst hcc
    have hv : v * c / c = v := by rw [mul_div_assoc, div_self hc, mul_one]
    rw [hv]
    simp [inflate, pyEq]
  · have hne : (n == n2) = false := by simp [hEq]
    have hz : (n2 == (0 : Int)) = false := by simp [hn2]
    simp [inflate, pyEq, hne, isFalsy, hz, sanitize, inflateCore, typeOf, h1, h2]

/-- Helper for C1: the ratio computation for two first-of-month
dates. -/
theorem inflate_quotient_date (e : Env) (v : Rat) (s : String) (y y2 : Int) (m m2 : Nat)
    (c c2 : Rat)
    (h1 : cpiGet e (.pydate y m 1) s = .ok c) (h2 : cpiGet e (.pydate y2 m2 1) s = .ok c2)
    (hc : c ≠ 0) :
    inflate e v (.pydate y m 1) (some (.pydate y2 m2 1)) s = .ok (v * c2 / c) := by
  by_cases hEq : y = y2 ∧ m = m2
  · obtain ⟨hy, hm⟩ := hEq
    subst hy
    subst hm
    rw [h1] at h2
    injection h2 with hcc
    subst hcc
    have hv : v * c / c = v := by rw [mul_div_assoc, div_self hc, mul_one]
    rw [hv]
    simp [inflate, pyEq]
  · have hne : pyEq (.pydate y m 1) (.pydate y2 m2 1) = false := by
      rcases not_and_or.mp hEq with h | h
      · simp [pyEq, h]
      · simp [pyEq, h]
    simp [inflate, hne, isFalsy, sanitize, inflateCore, typeOf, h1, h2]

/-- C1: for every value, series, and pair of valid same-granularity
time keys present in the series (the source value being nonzero, as
every real CPI index value is), `inflate(v, t, to=t2, series=s)`
returns exactly `v * get(t2) / get(t)` — a pure quotient with no
internal rounding, stated over exact rational arithmetic. -/
theorem inflate_pure_quotient_scaling
    (e : Env) (v : Rat) (s : String) (k k2 : PyVal) (c c2 : Rat)
    (hk : isValidTimeKey k = true) (hk2 : isValidTimeKey k2 = true)
    (hg : sameGranularity k k2 = true)
    (h1 : cpiGet e k s = .ok c) (h2 : cpiGet e k2 s = .ok c2) (hc : c ≠ 0) :
    inflate e v k (some k2) s = .ok (v * c2 / c) := by
  cases k with
  | int n =>
    cases k2 with
    | int n2 =>
      have hn2 : n2 ≠ 0 := by simpa [isValidTimeKey] using hk2
      exact inflate_quotient_int e v s n n2 c c2 hn2 h1 h2 hc
    | pydate y m d => simp [sameGranularity] at hg
    | pydatetime y m d => simp [sameGranularity] at hg
    | float q => simp [sameGranularity] at hg
    | pynone => simp [sameGranularity] at hg
  | pydate y m d =>
    cases k2 with
    | int n2 => simp [sameGranularity] at hg
    | pydate y2 m2 d2 =>
      have hd : d = 1 := by simpa [isValidTimeKey] using hk
      have hd2 : d2 = 1 := by simpa [isValidTimeKey] using hk2
      subst hd
      subst hd2
      exact inflate_quotient_date e v s y y2 m m2 c c2 h1 h2 hc
    | pydatetime y2 m2 d2 => simp [sameGranularity] at hg
    | float q => simp [sameGranularity] at hg
    | pynone => simp [sameGranularity] at hg
  | pydatetime y m d => simp [isValidTimeKey] at hk
  | float q => simp [isValidTimeKey] at hk
  | pynone => simp [isValidTimeKey] at hk

theorem inflate_pure_quotient_scaling_witness :
    inflate envW 100 (.int 1950) (some (.int 2000)) DEFAULT_SERIES = .ok (100 * 172 / 24) :=
  inflate_pure_quotient_scaling envW 100 DEFAULT_SERIES (.int 1950) (.int 2000) 24 172
    (by decide) (by decide) (by decide) (by decide) (by decide) (by decide)

/-- C3 (amended): whenever `time_key` and a truthy `to` normalize to
different granularity classes (one an integer year, the other a
date), `inflate` raises the TypeError before any index lookup —
uniformly in the environment, so no lookup can influence the result;
when `to` is falsy (`0`, `False`, `0.0`) it is instead replaced by the
default target and no type error is raised (see the counterexample). -/
theorem inflate_mixed_granularity_type_error
    (e : Env) (v : Rat) (k k2 : PyVal) (s : String)
    (hf : isFalsy k2 = false)
    (hg : (typeOf (sanitize k) = PyType.tInt ∧ typeOf (sanitize k2) = PyType.tDate) ∨
          (typeOf (sanitize k) = PyType.tDate ∧ typeOf (sanitize k2) = PyType.tInt)) :
    inflate e v k (some k2) s
      = .err (.typeError ("Years can only be converted to other years. Months only to other months.")) := by
  cases k <;> cases k2 <;>
    simp_all [inflate, inflateCore, pyEq, isFalsy, sanitize, typeOf]

theorem inflate_mixed_granularity_type_error_witness :
    inflate envW 100 (.int 1950) (some (.pydate 2000 1 1)) DEFAULT_SERIES
      = .err (.typeError ("Years can only be converted to other years. Months only to other months.")) :=
  inflate_mixed_granularity_type_error envW 100 (.int 1950) (.pydate 2000 1 1) DEFAULT_SERIES
    (by decide) (Or.inl (by decide))

/-- C3 (counterexample): with `time_key = date(1950, 1, 1)` and
`to = 0` — different granularity classes, not equal — the claim
demands a TypeMismatch failure, but the code treats the falsy `0` as
an omitted `to`, replaces it with the latest month of the default
series and returns an inflated value instead of raising. -/
theorem inflate_mixed_granularity_falsy_cex :
    typeOf (sanitize (.pydate 1950 1 1)) ≠ typeOf (sanitize (.int 0)) ∧
    pyEq (.pydate 1950 1 1) (.int 0) = false ∧
    inflate envC3 100 (.pydate 1950 1 1) (some (.int 0)) DEFAULT_SERIES
      = .ok (100 * 320 / 20) := by
  refine ⟨by decide, by decide, by rfl⟩

/-- C5: a `time_key` that is neither an integer nor date-like fails
with the ValueError (the InvalidInput class) uniformly in the
environment and series — hence before any series or index lookup —
while an integer year or a first-of-month date of valid type that is
absent from an existing series dictionary fails with
CPIDoesNotExist (the NotFound class). -/
theorem cpiGet_type_gate_and_not_found (e : Env) (s : String) :
    (∀ k : PyVal, isTimeKeyType k = false →
        cpiGet e k s = .err (.valueError ("Only integers and date objects are accepted."))) ∧
    (∀ (n : Int) (ys : List (Int × Rat)), e.byYear.lookup s = some ys →
        ys.lookup n = Option.none →
        cpiGet e (.int n) s = .err (.doesNotExist ("CPI value not found"))) ∧
    (∀ (y : Int) (m d : Nat) (ms : List (DateKey × Rat)), e.byMonth.lookup s = some ms →
        ms.lookup (y, m, 1) = Option.none →
        cpiGet e (.pydate y m d) s = .err (.doesNotExist ("CPI value not found"))) := by
  refine ⟨?_, ?_, ?_⟩
  · intro k hk
    cases k <;> simp_all [isTimeKeyType, cpiGet]
  · intro n ys hs hn
    simp [cpiGet, hs, hn]
  · intro y m d ms hs hk
    simp [cpiGet, hs, monthKey_normalized, hk]

theorem cpiGet_type_gate_and_not_found_witness :
    cpiGet envW (.float 1900) DEFAULT_SERIES
      = .err (.valueError ("Only integers and date objects are accepted.")) ∧
    cpiGet envW (.int 1900) DEFAULT_SERIES
      = .err (.doesNotExist ("CPI value not found")) ∧
    cpiGet envW (.pydate 1900 1 1) DEFAULT_SERIES
      = .err (.doesNotExist ("CPI value not found")) :=
  ⟨(cpiGet_type_gate_and_not_found envW DEFAULT_SERIES).1 (.float 1900) (by decide),
   (cpiGet_type_gate_and_not_found envW DEFAULT_SERIES).2.1 1900
     [(1950, 24), (2000, 172)] (by decide) (by decide),
   (cpiGet_type_gate_and_not_found envW DEFAULT_SERIES).2.2 1900 1 1
     [((1950, 1, 1), 23), ((2025, 3, 1), 319)] (by decide) (by decide)⟩

/-- C6 (amended): every modelled lookup miss raises the NotFound
class `CPIObjectDoesNotExist`; the codec survey-table and
seasonality-table misses in `SeriesList.get` name the offending
attribute in their messages, but a catalog miss through `queryone`
(`get_by_id` / `get_by_name`) carries the fixed message "Object does
not exist", which names neither the key nor the table. -/
theorem catalog_miss_error_contract (tbl : List CatRow) (k nm sv : String)
    (sa : SeasonalityArg) :
    ((tbl.filter (fun r => r.id == k)) = [] →
        getById tbl k = .err (.objectDoesNotExist ("Object does not exist"))) ∧
    ((tbl.filter (fun r => r.name == nm)) = [] →
        getByName tbl nm = .err (.objectDoesNotExist ("Object does not exist"))) ∧
    (surveysEncode sv.data = Option.none →
        surveyCodeLookup sv
          = .err (.objectDoesNotExist ("Survey with the name " ++ sv ++ " does not exist"))) ∧
    (seasonalitiesLookup sa = Option.none →
        seasonalityCodeLookup sa
          = .err (.objectDoesNotExist
              ("Seasonality " ++ seasonalityArgStr sa ++ " does not exist"))) := by
  refine ⟨?_, ?_, ?_, ?_⟩
  · intro h
    simp [getById, queryone, h]
  · intro h
    simp [getByName, queryone, h]
  · intro h
    simp [surveyCodeLookup, h]
  · intro h
    simp [seasonalityCodeLookup, h]

theorem catalog_miss_error_contract_witness :
    getById areasCat ("ZZZZ") = .err (.objectDoesNotExist ("Object does not exist")) ∧
    getByName areasCat ("Nope") = .err (.objectDoesNotExist ("Object does not exist")) ∧
    surveyCodeLookup ("Bogus")
      = .err (.objectDoesNotExist ("Survey with the name Bogus does not exist")) ∧
    seasonalityCodeLookup (.pyother ("yes"))
      = .err (.objectDoesNotExist ("Seasonality yes does not exist")) :=
  ⟨(catalog_miss_error_contract areasCat ("ZZZZ") ("Nope") ("Bogus")
      (.pyother ("yes"))).1 (by decide),
   (catalog_miss_error_contract areasCat ("ZZZZ") ("Nope") ("Bogus")
      (.pyother ("yes"))).2.1 (by decide),
   (catalog_miss_error_contract areasCat ("ZZZZ") ("Nope") ("Bogus")
      (.pyother ("yes"))).2.2.1 (by decide),
   (catalog_miss_error_contract areasCat ("ZZZZ") ("Nope") ("Bogus")
      (.pyother ("yes"))).2.2.2 (by decide)⟩

/-- C6 (counterexample): a name miss in the areas catalog raises the
NotFound class, but its message is the bare "Object does not exist"
— it mentions neither the missing key nor the catalog, contradicting
the claim that every miss identifies them and that no miss surfaces
without context. -/
theorem catalog_miss_no_context_cex :
    getByName areasCat ("Nope") = .err (.objectDoesNotExist ("Object does not exist")) ∧
    mentions ("Object does not exist") ("Nope") = false ∧
    mentions ("Object does not exist") ("areas") = false := by
  refine ⟨by decide, by decide, by decide⟩

/-- Helper for C8: concatenating the five `parse_id` slices
reproduces the original character list. -/
theorem parseId_concat_eq (l : List Char) :
    l.take 2 ++ ((l.drop 2).take 1 ++ ((l.drop 3).take 1 ++ ((l.drop 4).take 4 ++ l.drop 8))) = l := by
  have h8 : (l.drop 4).take 4 ++ l.drop 8 = l.drop 4 := by
    have h := List.drop_take_append_drop l 4 4
    rwa [show (4 + 4 : Nat) = 8 from rfl] at h
  have h4 : (l.drop 3).take 1 ++ l.drop 4 = l.drop 3 := by
    have h := List.drop_take_append_drop l 3 1
    rwa [show (3 + 1 : Nat) = 4 from rfl] at h
  have h3 : (l.drop 2).take 1 ++ l.drop 3 = l.drop 2 := by
    have h := List.drop_take_append_drop l 2 1
    rwa [show (2 + 1 : Nat) = 3 from rfl] at h
  rw [h8, h4, h3, List.take_append_drop]

/-- C8: the codec round trip.  First law: for a series id whose
survey code is CU or CW, whose seasonal code is S or U, and whose
periodicity, area and item codes resolve in their catalogs to records
that carry those same codes and round-trip by name, decoding,
rehydrating and re-encoding reproduce the identical id.  Second law:
decoding an id encoded from fixed-width codes (2-char survey, 1-char
seasonal, 1-char periodicity, 4-char area, any item) returns exactly
those codes. -/
theorem series_id_codec_round_trip :
    (∀ (pcat acat icat : List CatRow) (id : List Char) (pr ar ir : CatRow),
      (id.take 2 = ("CU").data ∨ id.take 2 = ("CW").data) →
      ((id.drop 2).take 1 = ("S").data ∨ (id.drop 2).take 1 = ("U").data) →
      getById pcat (String.mk ((id.drop 3).take 1)) = .ok pr →
      getByName pcat pr.name = .ok pr →
      pr.code.data = (id.drop 3).take 1 →
      getById acat (String.mk ((id.drop 4).take 4)) = .ok ar →
      getByName acat ar.name = .ok ar →
      ar.code.data = (id.drop 4).take 4 →
      getById icat (String.mk (id.drop 8)) = .ok ir →
      getByName icat ir.name = .ok ir →
      ir.code.data = id.drop 8 →
      rehydrateEncode pcat acat icat id = .ok id) ∧
    (∀ (sc seasc pc ac ic : List Char),
      sc.length = 2 → seasc.length = 1 → pc.length = 1 → ac.length = 4 →
      parseId (sc ++ (seasc ++ (pc ++ (ac ++ ic)))) = (sc, seasc, pc, ac, ic)) := by
  constructor
  · intro pcat acat icat id pr ar ir hsv hsn hp hpn hpc ha han hac hi hin hic
    simp only [rehydrateEncode, parseId]
    conv_rhs => rw [← parseId_concat_eq id]
    generalize hq1 : List.take 2 id = sc at hsv ⊢
    generalize hq2 : List.take 1 (List.drop 2 id) = seasc at hsn ⊢
    generalize hq3 : List.take 1 (List.drop 3 id) = pcd at hp hpc ⊢
    generalize hq4 : List.take 4 (List.drop 4 id) = acd at ha hac ⊢
    generalize hq5 : List.drop 8 id = icd at hi hic ⊢
    rcases hsv with hsv | hsv <;> rcases hsn with hsn | hsn <;> subst hsv <;> subst hsn <;>
      simp [surveysDecode, surveysEncode, seasonalityCode, hp, hpn, hpc, ha, han, hac,
        hi, hin, hic]
  · intro sc seasc pc ac ic h2 h1 hpk h4
    have d2 : (sc ++ (seasc ++ (pc ++ (ac ++ ic)))).drop 2 = seasc ++ (pc ++ (ac ++ ic)) :=
      List.drop_left' h2
    have d3 : (sc ++ (seasc ++ (pc ++ (ac ++ ic)))).drop 3 = pc ++ (ac ++ ic) := by
      have h := List.drop_drop 1 2 (sc ++ (seasc ++ (pc ++ (ac ++ ic))))
      rw [show (1 + 2 : Nat) = 3 from rfl] at h
      rw [← h, d2]
      exact List.drop_left' h1
    have d4 : (sc ++ (seasc ++ (pc ++ (ac ++ ic)))).drop 4 = ac ++ ic := by
      have h := List.drop_drop 1 3 (sc ++ (seasc ++ (pc ++ (ac ++ ic))))
      rw [show (1 + 3 : Nat) = 4 from rfl] at h
      rw [← h, d3]
      exact List.drop_left' hpk
    have d8 : (sc ++ (seasc ++ (pc ++ (ac ++ ic)))).drop 8 = ic := by
      have h := List.drop_drop 4 4 (sc ++ (seasc ++ (pc ++ (ac ++ ic))))
      rw [show (4 + 4 : Nat) = 8 from rfl] at h
      rw [← h, d4]
      exact List.drop_left' h4
    simp only [parseId, d2, d3, d4, d8]
    rw [List.take_left' h2, List.take_left' h1, List.take_left' hpk, List.take_left' h4]

theorem series_id_codec_round_trip_witness :
    rehydrateEncode periodicitiesCat areasCat itemsCat (("CUUR0000SA0").data)
      = .ok (("CUUR0000SA0").data) ∧
    parseId ((("CU").data) ++ ((("U").data) ++ ((("R").data) ++ ((("0000").data) ++ (("SA0").data)))))
      = ((("CU").data), (("U").data), (("R").data), (("0000").data), (("SA0").data)) :=
  ⟨series_id_codec_round_trip.1 periodicitiesCat areasCat itemsCat (("CUUR0000SA0").data)
      { id := "R", code := "R", name := "Monthly" }
      { id := "0000", code := "0000", name := "U.S. city average" }
      { id := "SA0", code := "SA0", name := "All items" }
      (Or.inl (by decide)) (Or.inr (by decide)) (by decide) (by decide) (by decide)
      (by decide) (by decide) (by decide) (by decide) (by decide) (by decide),
   series_id_codec_round_trip.2 (("CU").data) (("U").data) (("R").data) (("0000").data)
      (("SA0").data) (by decide) (by decide) (by decide) (by decide)⟩

/-- Helper for C9: a successful index load produces exactly one
`Index` object per raw row. -/
theorem loadIndexes_length (periods : List PeriodRow) (sid : String) :
    ∀ (rows : List IndexRow) (l : List IndexObj),
      loadIndexes periods sid rows = .ok l → l.length = rows.length := by
  intro rows
  induction rows with
  | nil =>
    intro l h
    simp only [loadIndexes] at h
    injection h with h
    simp [← h]
  | cons r rest ih =>
    intro l h
    simp only [loadIndexes] at h
    cases hf : periods.find? (fun p => p.id == r.period) with
    | none => rw [hf] at h; exact absurd h (by simp)
    | some p =>
      rw [hf] at h
      cases hrec : loadIndexes periods sid rest with
      | err er => rw [hrec] at h; exact absurd h (by simp)
      | ok l2 =>
        rw [hrec] at h
        injection h with h
        rw [← h]
        simp [ih l2 hrec]

/-- Helper for C9: a series loaded by `Series.get_by_id` carries one
`Index` object for every index row of that series in the store. -/
theorem seriesGetById_full (db : DB) (v : String) (obj : SeriesObj)
    (h : seriesGetById db v = .ok obj) :
    obj.indexes.length = (db.indexes.filter (fun r => r.series == v)).length := by
  unfold seriesGetById at h
  split at h
  · exact absurd h (by simp)
  · split at h
    · exact absurd h (by simp)
    · split at h
      · exact absurd h (by simp)
      · split at h
        · exact absurd h (by simp)
        · split at h
          · exact absurd h (by simp)
          · split at h
            · exact absurd h (by simp)
            · rename_i idxs hidx
              injection h with h
              rw [← h]
              exact loadIndexes_length db.periods _ _ idxs hidx

/-- C9 (amended): the `SeriesList` store is an at-most-once-per-id
loader.  A cache hit returns the cached object itself, leaves the
cache untouched and does not query the persisted store; a miss loads
the series fully (one `Index` per stored row) in one call, inserts it
under its id, and the inserted binding is immediately visible; and
`get_by_id` never removes or replaces an existing cache binding.  (The
separate `append` operation, by contrast, can rebind an already
cached id — see the counterexample.) -/
theorem series_cache_discipline (db : DB) (cache : SeriesCache) (v : String) :
    (∀ obj : SeriesObj, cache.lookup v = some obj →
        seriesListGetById db cache v = (.ok obj, cache, false)) ∧
    (∀ obj : SeriesObj, cache.lookup v = Option.none → seriesGetById db v = .ok obj →
        seriesListGetById db cache v = (.ok obj, (v, obj) :: cache, true) ∧
        ((v, obj) :: cache).lookup v = some obj ∧
        obj.indexes.length = (db.indexes.filter (fun r => r.series == v)).length) ∧
    (∀ (res : DbRes SeriesObj) (c2 : SeriesCache) (q : Bool) (id2 : String) (o : SeriesObj),
        seriesListGetById db cache v = (res, c2, q) →
        cache.lookup id2 = some o → c2.lookup id2 = some o) := by
  refine ⟨?_, ?_, ?_⟩
  · intro obj hob
    simp [seriesListGetById, hob]
  · intro obj hmiss hload
    refine ⟨?_, ?_, ?_⟩
    · simp [seriesListGetById, hmiss, hload]
    · simp [List.lookup]
    · exact seriesGetById_full db v obj hload
  · intro res c2 q id2 o hrun hlook
    cases hv : cache.lookup v with
    | some obj =>
      rw [seriesListGetById, hv] at hrun
      injection hrun with h1 hrest
      injection hrest with h2 h3
      rw [← h2]
      exact hlook
    | none =>
      cases hl : seriesGetById db v with
      | ok obj =>
        rw [seriesListGetById, hv, hl] at hrun
        injection hrun with h1 hrest
        injection hrest with h2 h3
        rw [← h2]
        have hne : (id2 == v) = false := by
          by_cases hvv : v = id2
          · subst hvv
            rw [hv] at hlook
            exact absurd hlook (by simp)
          · simp [show id2 ≠ v from fun hh => hvv hh.symm]
        simp [List.lookup, hne, hlook]
      | err er =>
        rw [seriesListGetById, hv, hl] at hrun
        injection hrun with h1 hrest
        injection hrest with h2 h3
        rw [← h2]
        exact hlook

theorem series_cache_discipline_witness :
    (seriesListGetById dbW [] ("CUUR0000SA0")
        = (.ok sObjW, [(("CUUR0000SA0" : String), sObjW)], true) ∧
      ([(("CUUR0000SA0" : String), sObjW)]).lookup ("CUUR0000SA0") = some sObjW ∧
      sObjW.indexes.length
        = (dbW.indexes.filter (fun r => r.series == ("CUUR0000SA0" : String))).length) ∧
    seriesListGetById dbW [(("CUUR0000SA0" : String), sObjW)] ("CUUR0000SA0")
      = (.ok sObjW, [(("CUUR0000SA0" : String), sObjW)], false) :=
  ⟨(series_cache_discipline dbW [] ("CUUR0000SA0")).2.1 sObjW (by decide) (by decide),
   (series_cache_discipline dbW [(("CUUR0000SA0" : String), sObjW)] ("CUUR0000SA0")).1
     sObjW (by decide)⟩

/-- C9 (counterexample): `SeriesList.append` on a second Series
object carrying an already-cached id rebinds the cache entry to the
new object, so the originally cached Series is displaced — the claim
that no operation ever mutates or evicts a cached Series fails. -/
theorem series_cache_append_rebind_cex :
    sObjW2.id = sObjW.id ∧
    (seriesListAppend (seriesListAppend [] sObjW) sObjW2).lookup ("CUUR0000SA0")
      = some sObjW2 ∧
    sObjW2 ≠ sObjW := by
  refine ⟨by decide, by decide, by decide⟩
